import Mathlib

/-!
Shallow embedding of the WeConnect backend (TypeScript/Express) used to check
the natural-language specification against the code.  Each definition mirrors
one function of the source tree: the webhook-signature middleware and the
validators from src/middleware/security.ts, the row-level persistence helpers
from src/config/database.ts, the auth controller (signup), the posts and
connections controllers, and the n8n callback route from src/index.ts.
Strings model JavaScript strings, Option models possibly-undefined values,
and stores are modelled as lists of rows.
-/

namespace WeConnect

/-! ## JavaScript primitives -/

/-- Truthiness of a possibly-missing string header or body field: JavaScript
treats both undefined and the empty string as falsy. -/
def jsFalsy (s : Option String) : Bool :=
  s.getD "" = ""

/-- Value of a decimal digit character. -/
def digitVal (c : Char) : Nat := c.toNat - 48

/-- Leading decimal digits of a character list, or none when the list does not
start with a digit (parseInt returns NaN in that case). -/
def leadingNat (l : List Char) : Option Nat :=
  let ds := l.takeWhile Char.isDigit
  if ds.isEmpty then none
  else some (ds.foldl (fun a c => 10 * a + digitVal c) 0)

/-- Model of JavaScript parseInt(s, 10): skip leading whitespace, accept an
optional sign, then read leading decimal digits; none models NaN. -/
def jsParseInt (s : String) : Option Int :=
  match s.data.dropWhile Char.isWhitespace with
  | '-' :: rest => (leadingNat rest).map (fun n => -(n : Int))
  | '+' :: rest => (leadingNat rest).map (fun n => (n : Int))
  | l => (leadingNat l).map (fun n => (n : Int))

/-- Word character of the JavaScript regex class \w. -/
def isWordChar (c : Char) : Bool :=
  ('a' ≤ c && c ≤ 'z') || ('A' ≤ c && c ≤ 'Z') || ('0' ≤ c && c ≤ '9') || c = '_'

/-- Lower-cased string (String.prototype.toLowerCase restricted to the ASCII
range, written over the character list so it evaluates in the kernel). -/
def jsToLower (s : String) : String :=
  String.mk (s.data.map Char.toLower)

/-- Split a character list at every occurrence of a separator character;
always returns at least one (possibly empty) chunk, like String.split on a
single-character separator in JavaScript. -/
def splitOnChar (sep : Char) : List Char → List (List Char)
  | [] => [[]]
  | c :: rest =>
    match splitOnChar sep rest with
    | [] => [[]]
    | chunk :: chunks =>
      if c = sep then [] :: chunk :: chunks else (c :: chunk) :: chunks

/-- The nonempty whitespace-separated tokens of a string, left to right: the
value of content.trim().split(on runs of whitespace) with empty tokens
filtered out.  The accumulator holds the reversed characters of the token in
progress, none while inside whitespace. -/
def wordsAux : List Char → Option (List Char) → List String
  | [], none => []
  | [], some acc => [String.mk acc.reverse]
  | c :: rest, none =>
      if c.isWhitespace then wordsAux rest none
      else wordsAux rest (some [c])
  | c :: rest, some acc =>
      if c.isWhitespace then String.mk acc.reverse :: wordsAux rest none
      else wordsAux rest (some (c :: acc))

/-- The words of a post content as counted by calculateMetadata. -/
def jsWords (content : String) : List String :=
  wordsAux content.data none

/-! ## src/middleware/security.ts -/

/-- Outcome of the verifyWebhookSignature middleware: either call next() or
answer 401 with the given message. -/
inductive WebhookOutcome where
  | proceed : WebhookOutcome
  | reject : String → WebhookOutcome
deriving DecidableEq, Repr

/-- Model of verifyWebhookSignature.  hmacSha256Hex abstracts
crypto.createHmac('sha256', secret).update(payload).digest('hex'); bodyJson is
JSON.stringify(req.body); signature and timestamp are the two request headers
(none when absent). -/
def verifyWebhookSignature (hmacSha256Hex : String → String → String)
    (webhookSecret : String) (currentTime : Int)
    (signature timestamp : Option String) (bodyJson : String) : WebhookOutcome :=
  if webhookSecret = "" then
    .proceed
  else if jsFalsy signature || jsFalsy timestamp then
    .reject "Webhook-Signatur fehlt."
  else
    let sig := signature.getD ""
    let ts := timestamp.getD ""
    let stale : Bool :=
      match jsParseInt ts with
      | some requestTime => decide (300 < (currentTime - requestTime).natAbs)
      | none => false
    if stale then
      .reject "Webhook-Request abgelaufen."
    else
      let payload := bodyJson ++ ts
      let expectedSignature := hmacSha256Hex webhookSecret payload
      if sig ≠ expectedSignature then
        .reject "Ungültige Webhook-Signatur."
      else
        .proceed

/-- Result record of validatePassword. -/
structure PasswordValidationResult where
  isValid : Bool
  errors : List String
deriving DecidableEq, Repr

/-- The symbol class of validatePassword:
!@#$%^&*()_+-=[]\x7b\x7d;':"\|,.<>/? (braces, apostrophe, quote and backslash
written via their code points). -/
def passwordSymbols : List Char :=
  ['!', '@', '#', '$', '%', '^', '&', '*', '(', ')', '_', '+', '-', '=',
   '[', ']', Char.ofNat 123, Char.ofNat 125, ';', Char.ofNat 39, ':',
   Char.ofNat 34, Char.ofNat 92, '|', ',', '.', '<', '>', '/', '?']

/-- Model of validatePassword from src/middleware/security.ts: collects the
error messages in source order; isValid holds when no rule fired. -/
def validatePassword (password : String) : PasswordValidationResult :=
  let errors :=
    (if password.length < 8 then
      ["Passwort muss mindestens 8 Zeichen lang sein."] else []) ++
    (if 128 < password.length then
      ["Passwort darf maximal 128 Zeichen lang sein."] else []) ++
    (if !(password.data.any (fun c => 'A' ≤ c && c ≤ 'Z')) then
      ["Passwort muss mindestens einen Großbuchstaben enthalten."] else []) ++
    (if !(password.data.any (fun c => 'a' ≤ c && c ≤ 'z')) then
      ["Passwort muss mindestens einen Kleinbuchstaben enthalten."] else []) ++
    (if !(password.data.any (fun c => '0' ≤ c && c ≤ '9')) then
      ["Passwort muss mindestens eine Zahl enthalten."] else []) ++
    (if !(password.data.any (fun c => passwordSymbols.contains c)) then
      ["Passwort muss mindestens ein Sonderzeichen enthalten."] else [])
  { isValid := errors.length = 0, errors := errors }

/-- Model of the email regex of the signup controller,
/^[^\s@]+@[^\s@]+\.[^\s@]+$/ : the string splits at a unique @ into a
nonempty local part and a domain that contains a dot that is neither its
first nor its last character, with no whitespace anywhere. -/
def jsEmailRegexTest (email : String) : Bool :=
  match splitOnChar '@' email.data with
  | [localPart, domain] =>
    !localPart.isEmpty &&
    localPart.all (fun c => !c.isWhitespace) &&
    domain.all (fun c => !c.isWhitespace) &&
    ((domain.drop 1).dropLast).contains '.'
  | _ => false

/-! ## src/types/index.ts : the data model -/

/-- Computed metadata of a post (PostMetadata in src/types/index.ts). -/
structure PostMetadata where
  characterCount : Nat
  wordCount : Nat
  hashtags : List String
  mentions : List String
deriving DecidableEq, Repr

/-- A stored post row: the columns of the posts table handled by database.ts
(mapRowToPost).  The table has no metadata column — the computed PostMetadata
only exists on in-memory objects and is never persisted. -/
structure Post where
  id : String
  userId : String
  title : String
  content : String
  platforms : List String
  status : String
  scheduledAt : Option String
  publishedAt : Option String
  mediaUrls : List String
  hashtags : List String
  createdAt : String
  updatedAt : String
deriving DecidableEq, Repr

/-- A stored connection row (Connection in src/types/index.ts restricted to
the columns of the connections table). -/
structure Connection where
  id : String
  userId : String
  platform : String
  platformUserId : Option String
  platformUsername : Option String
  accessToken : Option String
  refreshToken : Option String
  tokenExpiresAt : Option String
  status : String
  createdAt : String
  updatedAt : String
deriving DecidableEq, Repr

/-- A stored user row (User in src/types/index.ts, with the fields the signup
controller populates). -/
structure User where
  id : String
  email : String
  password : String
  name : String
  firstName : String
  lastName : String
  role : String
  createdAt : String
  updatedAt : String
deriving DecidableEq, Repr

/-- SafeUser = Omit of User over the password field: the user view returned by
API responses; it has no password field at all. -/
structure SafeUser where
  id : String
  email : String
  name : String
  firstName : String
  lastName : String
  role : String
  createdAt : String
  updatedAt : String
deriving DecidableEq, Repr

/-! ## src/controllers/postsController.ts : calculateMetadata -/

/-- Global matcher for the JavaScript regex marker\w+ (with marker the # or @
sign): walks the characters left to right; the accumulator holds the reversed
word characters of the run in progress, none while outside a run.  A run is
emitted once it is maximal and nonempty, matching leftmost non-overlapping
greedy regex search. -/
def scanTagsAux (marker : Char) : List Char → Option (List Char) → List String
  | [], none => []
  | [], some acc =>
      if acc.isEmpty then [] else [String.mk (marker :: acc.reverse)]
  | c :: rest, none =>
      if c = marker then scanTagsAux marker rest (some [])
      else scanTagsAux marker rest none
  | c :: rest, some acc =>
      if isWordChar c then scanTagsAux marker rest (some (c :: acc))
      else
        (if acc.isEmpty then [] else [String.mk (marker :: acc.reverse)]) ++
        (if c = marker then scanTagsAux marker rest (some [])
         else scanTagsAux marker rest none)

/-- All matches of marker\w+ in a string, in order (content.match with the
global flag; the null result is modelled by the empty list). -/
def scanTags (marker : Char) (content : String) : List String :=
  scanTagsAux marker content.data none

/-- Model of calculateMetadata: word count from trimming and splitting on
whitespace runs, hashtags and mentions from the two global regex matches. -/
def calculateMetadata (content : String) : PostMetadata :=
  let words := jsWords content
  { characterCount := content.length
    wordCount := words.length
    hashtags := scanTags '#' content
    mentions := scanTags '@' content }

/-! ## src/config/database.ts : the persistence layer -/

/-- Partial update of a post as passed to db.updatePost.  An outer none means
the key is absent from the update object; for the nullable publishedAt column
an inner none models an explicit undefined value, which the JavaScript object
spread lets overwrite the existing value.  The metadata key is part of the
in-memory update object only: it matches no column of the posts table. -/
structure PostUpdate where
  content : Option String := none
  status : Option String := none
  publishedAt : Option (Option String) := none
  metadata : Option PostMetadata := none
deriving DecidableEq, Repr

/-- The column part of the spread of an existing row with the updates:
supplied keys overwrite, updatedAt is restamped.  This is the row the UPDATE
statement of db.updatePost writes back; the statement has no metadata column,
so the update's metadata key is dropped here. -/
def applyPostUpdate (p : Post) (u : PostUpdate) (now : String) : Post :=
  { p with
    content := u.content.getD p.content
    status := u.status.getD p.status
    publishedAt := match u.publishedAt with
      | none => p.publishedAt
      | some v => v
    updatedAt := now }

/-- The value db.updatePost returns to its caller, the spread of the
existing row with the updates and a fresh updatedAt.  The row component
holds the columns written back by the UPDATE statement; the metadata
component is the update object's metadata key, which matches no column of
the posts table and is never persisted — it only reaches the HTTP response
of the calling handler. -/
structure UpdatedPost where
  row : Post
  metadata : Option PostMetadata
deriving DecidableEq, Repr

/-- Partial update of a connection as passed to db.updateConnection; the
columns the UPDATE statement writes. -/
structure ConnectionUpdate where
  platformUserId : Option (Option String) := none
  platformUsername : Option (Option String) := none
  accessToken : Option (Option String) := none
  refreshToken : Option (Option String) := none
  tokenExpiresAt : Option (Option String) := none
  status : Option String := none
deriving DecidableEq, Repr

/-- The read-merge-write of db.updateConnection on a single row. -/
def applyConnectionUpdate (c : Connection) (u : ConnectionUpdate)
    (now : String) : Connection :=
  { c with
    platformUserId := match u.platformUserId with
      | none => c.platformUserId
      | some v => v
    platformUsername := match u.platformUsername with
      | none => c.platformUsername
      | some v => v
    accessToken := match u.accessToken with
      | none => c.accessToken
      | some v => v
    refreshToken := match u.refreshToken with
      | none => c.refreshToken
      | some v => v
    tokenExpiresAt := match u.tokenExpiresAt with
      | none => c.tokenExpiresAt
      | some v => v
    status := u.status.getD c.status
    updatedAt := now }

namespace db

/-- SELECT * FROM users WHERE LOWER(email) = LOWER($1). -/
def findUserByEmail (users : List User) (email : String) : Option User :=
  users.find? (fun u => jsToLower u.email = jsToLower email)

/-- SELECT * FROM posts WHERE id = $1. -/
def findPostById (posts : List Post) (id : String) : Option Post :=
  posts.find? (fun p => p.id = id)

/-- db.updatePost: read the row (undefined when absent, in which case
nothing is written), shallow-merge the updates, restamp updatedAt, write the
merged columns back under the same id, and return the merged object —
including its unpersisted metadata key. -/
def updatePost (posts : List Post) (id : String) (u : PostUpdate)
    (now : String) : List Post × Option UpdatedPost :=
  match findPostById posts id with
  | none => (posts, none)
  | some existing =>
    (posts.map (fun p => if p.id = id then applyPostUpdate p u now else p),
     some { row := applyPostUpdate existing u now, metadata := u.metadata })

/-- SELECT * FROM connections WHERE user_id = $1. -/
def findConnectionsByUserId (conns : List Connection) (userId : String) :
    List Connection :=
  conns.filter (fun c => c.userId = userId)

/-- SELECT * FROM connections WHERE id = $1. -/
def findConnectionById (conns : List Connection) (id : String) :
    Option Connection :=
  conns.find? (fun c => c.id = id)

/-- db.createConnection: INSERT ... ON CONFLICT (user_id, platform) DO UPDATE.
On conflict the existing row keeps its id and created_at and takes the new
values of platform_user_id, platform_username, access_token, refresh_token,
token_expires_at, status and updated_at; otherwise the row is inserted. -/
def createConnection (conns : List Connection) (c : Connection) :
    List Connection :=
  if conns.any (fun r => r.userId = c.userId && r.platform = c.platform) then
    conns.map (fun r =>
      if r.userId = c.userId && r.platform = c.platform then
        { r with
          platformUserId := c.platformUserId
          platformUsername := c.platformUsername
          accessToken := c.accessToken
          refreshToken := c.refreshToken
          tokenExpiresAt := c.tokenExpiresAt
          status := c.status
          updatedAt := c.updatedAt }
      else r)
  else
    conns ++ [c]

/-- db.updateConnection: read-merge-write under the same id. -/
def updateConnection (conns : List Connection) (id : String)
    (u : ConnectionUpdate) (now : String) : List Connection :=
  conns.map (fun c =>
    if c.id = id then applyConnectionUpdate c u now else c)

end db

/-! ## src/controllers/authController.ts -/

/-- toSafeUser: destructure the password out of the user object and keep the
rest. -/
def toSafeUser (user : User) : SafeUser :=
  { id := user.id
    email := user.email
    name := user.name
    firstName := user.firstName
    lastName := user.lastName
    role := user.role
    createdAt := user.createdAt
    updatedAt := user.updatedAt }

/-- Response of the signup controller: 400 Bad Request, 409 Conflict, or 201
Created carrying the safe user view and a token. -/
inductive SignupResult where
  | badRequest : String → SignupResult
  | conflict : SignupResult
  | created : SafeUser → String → SignupResult
deriving DecidableEq, Repr

/-- Model of the signup controller.  bcryptHash abstracts bcrypt.hash with 12
rounds, generateToken abstracts the jwt signing helper, newId the generated
uuid and now the current ISO timestamp.  Missing body fields are modelled as
empty strings (both are falsy).  Returns the response together with the users
store after the call. -/
def signup (bcryptHash generateToken : String → String) (users : List User)
    (email password firstName lastName : String) (newId now : String) :
    SignupResult × List User :=
  if email = "" || password = "" || firstName = "" || lastName = "" then
    (.badRequest "Alle Felder müssen ausgefüllt sein.", users)
  else if !jsEmailRegexTest email then
    (.badRequest "Ungültige E-Mail-Adresse.", users)
  else
    match db.findUserByEmail users email with
    | some _ => (.conflict, users)
    | none =>
      let newUser : User :=
        { id := newId
          email := jsToLower email
          password := bcryptHash password
          name := firstName ++ " " ++ lastName
          firstName := firstName
          lastName := lastName
          role := "user"
          createdAt := now
          updatedAt := now }
      (.created (toSafeUser newUser) (generateToken newId), users ++ [newUser])

/-! ## src/controllers/postsController.ts : the handlers -/

/-- getPostById: load by id, 404 when absent, 403 when the row belongs to
another user, else 200 with the post. -/
def getPostById (posts : List Post) (id userId : String) :
    Nat × Option Post :=
  match db.findPostById posts id with
  | none => (404, none)
  | some post =>
    if post.userId ≠ userId then (403, none)
    else (200, some post)

/-- updatePost handler: load by id, 404 when absent, 403 on foreign owner;
when the supplied content is truthy (present and nonempty) the metadata of
the update object is recomputed from it; then db.updatePost merges the
update.  Returns the status code, the posts store after the call, and the
merged object the 200 response carries as its data. -/
def updatePost (posts : List Post) (id userId : String) (updates : PostUpdate)
    (now : String) : Nat × List Post × Option UpdatedPost :=
  match db.findPostById posts id with
  | none => (404, posts, none)
  | some post =>
    if post.userId ≠ userId then (403, posts, none)
    else
      let updates' :=
        match updates.content with
        | some c =>
          if c ≠ "" then { updates with metadata := some (calculateMetadata c) }
          else updates
        | none => updates
      let r := db.updatePost posts id updates' now
      (200, r.1, r.2)

/-- Result of the publishPost handler: the status code, the posts store after
the call, and whether the outbound n8n publish webhook was called. -/
structure PublishResult where
  statusCode : Nat
  posts : List Post
  webhookCalled : Bool
deriving DecidableEq, Repr

/-- publishPost: load by id, 404 when absent, 403 on foreign owner; filter the
connections of the user down to those whose platform is among the post's
platforms with status connected; 400 when none remain; otherwise call the
webhook (webhookOk abstracts its success) and set the post to published with
publishedAt stamped, or to failed with a 500 on webhook failure. -/
def publishPost (posts : List Post) (conns : List Connection)
    (id userId : String) (webhookOk : Bool) (now : String) : PublishResult :=
  match db.findPostById posts id with
  | none => ⟨404, posts, false⟩
  | some post =>
    if post.userId ≠ userId then ⟨403, posts, false⟩
    else
      let connections := db.findConnectionsByUserId conns userId
      let activeConnections := connections.filter
        (fun c => post.platforms.contains c.platform && c.status = "connected")
      if activeConnections.length = 0 then ⟨400, posts, false⟩
      else if webhookOk then
        ⟨200,
         (db.updatePost posts id
           { status := some "published", publishedAt := some (some now) }
           now).1,
         true⟩
      else
        ⟨500, (db.updatePost posts id { status := some "failed" } now).1,
         true⟩

/-! ## src/controllers/connectionsController.ts : updateConnection handler -/

/-- updateConnection handler: load by id, 404 when absent, 403 on foreign
owner, else merge the update via db.updateConnection.  Returns the status
code and the connections store after the call. -/
def updateConnection (conns : List Connection) (id userId : String)
    (updates : ConnectionUpdate) (now : String) : Nat × List Connection :=
  match db.findConnectionById conns id with
  | none => (404, conns)
  | some connection =>
    if connection.userId ≠ userId then (403, conns)
    else (200, db.updateConnection conns id updates now)

/-! ## src/index.ts : the n8n callback route -/

/-- Response of the n8n callback route together with the posts store after
the call. -/
structure CallbackResult where
  statusCode : Nat
  success : Bool
  posts : List Post
deriving DecidableEq, Repr

/-- The three stati the callback accepts. -/
def validStatuses : List String := ["published", "failed", "pending"]

/-- Model of the POST /api/webhook/n8n/callback handler body (after the
signature middleware): 400 on a falsy postId, 400 on a truthy status outside
validStatuses; then, when the post exists, db.updatePost with status
defaulting to published and publishedAt stamped only when the status is
exactly the string published (the key is present with value undefined
otherwise, which the merge writes through); a missing post changes nothing;
both paths answer 200 with success true. -/
def n8nCallback (posts : List Post) (postId status : Option String)
    (now : String) : CallbackResult :=
  if jsFalsy postId then ⟨400, false, posts⟩
  else if !(jsFalsy status) && !(validStatuses.contains (status.getD "")) then
    ⟨400, false, posts⟩
  else
    let pid := postId.getD ""
    match db.findPostById posts pid with
    | some _ =>
      ⟨200, true,
       (db.updatePost posts pid
         { status := some (if jsFalsy status then "published"
                           else status.getD "")
           publishedAt := some (if status = some "published" then some now
                                else none) }
         now).1⟩
    | none => ⟨200, true, posts⟩

/-! ## Concrete fixtures used by witnesses and counterexamples -/

/-- Number of rows of a connections store holding a given (userId, platform)
pair. -/
def pairCount (conns : List Connection) (uid p : String) : Nat :=
  (conns.filter (fun r => r.userId = uid && r.platform = p)).length

/-- A draft post of user alice targeting instagram. -/
def demoPost : Post :=
  { id := "p1", userId := "alice", title := "T", content := "Hello world",
    platforms := ["instagram"], status := "draft", scheduledAt := none,
    publishedAt := none, mediaUrls := [], hashtags := [],
    createdAt := "t0", updatedAt := "t0" }

/-- A connected linkedin connection of alice (platform not among demoPost's
platforms). -/
def demoConnA : Connection :=
  { id := "c1", userId := "alice", platform := "linkedin",
    platformUserId := none, platformUsername := none,
    accessToken := some "tokA", refreshToken := none, tokenExpiresAt := none,
    status := "connected", createdAt := "t0", updatedAt := "t0" }

/-- First create call for the (u1, instagram) pair. -/
def demoConn1 : Connection :=
  { id := "id1", userId := "u1", platform := "instagram",
    platformUserId := none, platformUsername := none,
    accessToken := some "tokA", refreshToken := none, tokenExpiresAt := none,
    status := "pending", createdAt := "t1", updatedAt := "t1" }

/-- Second create call for the same (u1, instagram) pair with fresh values
everywhere. -/
def demoConn2 : Connection :=
  { id := "id2", userId := "u1", platform := "instagram",
    platformUserId := some "pu2", platformUsername := some "name2",
    accessToken := some "tokB", refreshToken := some "ref2",
    tokenExpiresAt := some "exp2", status := "connected",
    createdAt := "t2", updatedAt := "t2" }

/-- The row stored after the two create calls: the second call's values except
for id and createdAt, which stay from the first call. -/
def demoConnMerged : Connection :=
  { id := "id1", userId := "u1", platform := "instagram",
    platformUserId := some "pu2", platformUsername := some "name2",
    accessToken := some "tokB", refreshToken := some "ref2",
    tokenExpiresAt := some "exp2", status := "connected",
    createdAt := "t1", updatedAt := "t2" }

/-- The user row signup stores for the weak-password request of the C4
failing input. -/
def demoWeakUser : User :=
  { id := "u1", email := "a@b.co", password := "hash:weakpass",
    name := "Ann Lee", firstName := "Ann", lastName := "Lee",
    role := "user", createdAt := "t0", updatedAt := "t0" }

/-- The user row signup stores for the valid request of the C3 witness. -/
def demoStrongUser : User :=
  { id := "u1", email := "a@b.co", password := "hash:Str0ng!pass",
    name := "Ann Lee", firstName := "Ann", lastName := "Lee",
    role := "user", createdAt := "t0", updatedAt := "t0" }

/-! ## Theorems -/

/-- The empty string never parses to a number (parseInt gives NaN on it). -/
theorem jsParseInt_empty : jsParseInt "" = none := by
  decide

/-- Evaluation of the webhook middleware once the secret is configured and
both headers are present with a timestamp that parses: the stale check fires
exactly beyond the 300 second window, otherwise the outcome is decided by
comparing the given signature with the recomputed HMAC over the serialized
body concatenated with the timestamp string. -/
theorem verifyWebhookSignature_parsed (hmac : String → String → String)
    (secret : String) (currentTime : Int) (sig ts body : String)
    (requestTime : Int) (hsecret : secret ≠ "") (hsig : sig ≠ "")
    (hts : jsParseInt ts = some requestTime) :
    verifyWebhookSignature hmac secret currentTime (some sig) (some ts) body
      = if 300 < (currentTime - requestTime).natAbs then
          .reject "Webhook-Request abgelaufen."
        else if sig = hmac secret (body ++ ts) then .proceed
        else .reject "Ungültige Webhook-Signatur." := by
  have hts0 : ts ≠ "" := by
    intro h
    rw [h, jsParseInt_empty] at hts
    exact Option.noConfusion hts
  unfold verifyWebhookSignature
  rw [if_neg hsecret]
  have hfalsy : (jsFalsy (some sig) || jsFalsy (some ts)) = false := by
    simp [jsFalsy, hsig, hts0]
  rw [hfalsy]
  simp only [Bool.false_eq_true, if_false, Option.getD_some, hts]
  by_cases hstale : 300 < (currentTime - requestTime).natAbs
  · simp [hstale]
  · simp only [hstale, decide_eq_false_iff_not, if_false]
    by_cases hmatch : sig = hmac secret (body ++ ts)
    · simp [hstale, hmatch]
    · simp [hstale, hmatch]

/-- C1: with a configured secret and both headers present (and a timestamp
that parses to requestTime), the middleware rejects with the staleness 401
exactly when the absolute delta between the current time and the timestamp
exceeds 300 seconds; at a delta of at most 300 (in particular exactly 300)
the request proceeds to the signature check. -/
theorem webhook_staleness_boundary (hmac : String → String → String)
    (secret : String) (currentTime : Int) (sig ts body : String)
    (requestTime : Int) (hsecret : secret ≠ "") (hsig : sig ≠ "")
    (hts : jsParseInt ts = some requestTime) :
    (300 < (currentTime - requestTime).natAbs →
      verifyWebhookSignature hmac secret currentTime (some sig) (some ts) body
        = .reject "Webhook-Request abgelaufen.")
    ∧ ((currentTime - requestTime).natAbs ≤ 300 →
      verifyWebhookSignature hmac secret currentTime (some sig) (some ts) body
        = if sig = hmac secret (body ++ ts) then .proceed
          else .reject "Ungültige Webhook-Signatur.") := by
  rw [verifyWebhookSignature_parsed hmac secret currentTime sig ts body
    requestTime hsecret hsig hts]
  constructor
  · intro h
    rw [if_pos h]
  · intro h
    rw [if_neg (not_lt.mpr h)]

/-- C1 witness: at current time 1000, a timestamp of 699 (delta 301) is
rejected as stale while a timestamp of 700 (delta 300) proceeds to the
signature comparison, which here rejects the non-matching signature. -/
theorem webhook_staleness_boundary_witness :
    (verifyWebhookSignature (fun s p => s ++ p) "sec" 1000 (some "sig")
        (some "699") "null" = .reject "Webhook-Request abgelaufen.")
    ∧ (verifyWebhookSignature (fun s p => s ++ p) "sec" 1000 (some "sig")
        (some "700") "null" = .reject "Ungültige Webhook-Signatur.") := by
  constructor
  · exact (webhook_staleness_boundary (fun s p => s ++ p) "sec" 1000 "sig"
      "699" "null" 699 (by decide) (by decide) (by decide)).1 (by decide)
  · exact ((webhook_staleness_boundary (fun s p => s ++ p) "sec" 1000 "sig"
      "700" "null" 700 (by decide) (by decide) (by decide)).2
        (by decide)).trans (by decide)

/-- C2: with a configured secret, both headers present and a fresh timestamp,
the middleware proceeds precisely when the supplied signature equals the
HMAC-SHA256 recomputed over the serialized body concatenated with the
timestamp; consequently any body whose recomputed signature differs from the
supplied one (in particular a tampered body under the original signature) is
rejected with the signature 401. -/
theorem webhook_signature_check (hmac : String → String → String)
    (secret : String) (currentTime : Int) (sig ts body : String)
    (requestTime : Int) (hsecret : secret ≠ "") (hsig : sig ≠ "")
    (hts : jsParseInt ts = some requestTime)
    (hfresh : (currentTime - requestTime).natAbs ≤ 300) :
    (verifyWebhookSignature hmac secret currentTime (some sig) (some ts) body
        = .proceed ↔ sig = hmac secret (body ++ ts))
    ∧ (∀ body2, hmac secret (body2 ++ ts) ≠ sig →
        verifyWebhookSignature hmac secret currentTime (some sig) (some ts)
          body2 = .reject "Ungültige Webhook-Signatur.") := by
  constructor
  · rw [verifyWebhookSignature_parsed hmac secret currentTime sig ts body
      requestTime hsecret hsig hts, if_neg (not_lt.mpr hfresh)]
    by_cases hmatch : sig = hmac secret (body ++ ts)
    · simp [hmatch]
    · simp [hmatch]
  · intro body2 h2
    rw [verifyWebhookSignature_parsed hmac secret currentTime sig ts body2
      requestTime hsecret hsig hts, if_neg (not_lt.mpr hfresh),
      if_neg (fun h => h2 h.symm)]

/-- C2 witness: with the toy HMAC given by concatenation, the matching
signature over body null and timestamp 700 proceeds, while the same signature
over the tampered body evil is rejected. -/
theorem webhook_signature_check_witness :
    (verifyWebhookSignature (fun s p => s ++ p) "sec" 1000
        (some "secnull700") (some "700") "null" = .proceed)
    ∧ (verifyWebhookSignature (fun s p => s ++ p) "sec" 1000
        (some "secnull700") (some "700") "evil"
          = .reject "Ungültige Webhook-Signatur.") := by
  constructor
  · exact (webhook_signature_check (fun s p => s ++ p) "sec" 1000 "secnull700"
      "700" "null" 700 (by decide) (by decide) (by decide) (by decide)).1.mpr
      (by decide)
  · exact (webhook_signature_check (fun s p => s ++ p) "sec" 1000 "secnull700"
      "700" "null" 700 (by decide) (by decide) (by decide) (by decide)).2
      "evil" (by decide)

/-- C3: for every valid signup input (all fields nonempty, email matching the
regex, email not yet registered) the success response carries exactly the
safe projection toSafeUser w of the stored user w; the SafeUser view has no
password field by construction and the projection keeps every other field of
the stored user unchanged. -/
theorem signup_response_omits_password
    (bcryptHash generateToken : String → String) (users : List User)
    (email password firstName lastName newId now : String)
    (hfields : (email = "" || password = "" || firstName = ""
      || lastName = "") = false)
    (hemail : jsEmailRegexTest email = true)
    (hfree : db.findUserByEmail users email = none) :
    ∃ w : User,
      signup bcryptHash generateToken users email password firstName lastName
          newId now
        = (.created (toSafeUser w) (generateToken newId), users ++ [w])
      ∧ (toSafeUser w).id = w.id ∧ (toSafeUser w).email = w.email
      ∧ (toSafeUser w).name = w.name
      ∧ (toSafeUser w).firstName = w.firstName
      ∧ (toSafeUser w).lastName = w.lastName
      ∧ (toSafeUser w).role = w.role
      ∧ (toSafeUser w).createdAt = w.createdAt
      ∧ (toSafeUser w).updatedAt = w.updatedAt := by
  unfold signup
  simp only [hfields, hemail, hfree, Bool.not_true, Bool.false_eq_true,
    if_false]
  exact ⟨_, rfl, rfl, rfl, rfl, rfl, rfl, rfl, rfl, rfl⟩

/-- C3 witness: the concrete valid signup of Ann Lee stores demoStrongUser
and answers with its safe projection. -/
theorem signup_response_omits_password_witness :
    ∃ w : User,
      signup (fun p => "hash:" ++ p) (fun i => "tok:" ++ i) [] "a@b.co"
          "Str0ng!pass" "Ann" "Lee" "u1" "t0"
        = (.created (toSafeUser w) "tok:u1", [w])
      ∧ (toSafeUser w).id = w.id ∧ (toSafeUser w).email = w.email
      ∧ (toSafeUser w).name = w.name
      ∧ (toSafeUser w).firstName = w.firstName
      ∧ (toSafeUser w).lastName = w.lastName
      ∧ (toSafeUser w).role = w.role
      ∧ (toSafeUser w).createdAt = w.createdAt
      ∧ (toSafeUser w).updatedAt = w.updatedAt :=
  signup_response_omits_password (fun p => "hash:" ++ p)
    (fun i => "tok:" ++ i) [] "a@b.co" "Str0ng!pass" "Ann" "Lee" "u1" "t0"
    (by decide) (by decide) (by decide)

/-- C5: both for the posts handler (getPostById) and the connections handler
(updateConnection) the checks run load, then 404 on absence, then 403 on
foreign ownership, then proceed with 200: a nonexistent id yields 404 even
for a requester who could never own it, an existing row of another user
yields 403, and an owned row yields 200. -/
theorem resource_access_check_order (posts : List Post)
    (conns : List Connection) (id userId : String) (u : ConnectionUpdate)
    (now : String) :
    ((db.findPostById posts id = none →
        (getPostById posts id userId).1 = 404)
      ∧ (∀ p, db.findPostById posts id = some p → p.userId ≠ userId →
          (getPostById posts id userId).1 = 403)
      ∧ (∀ p, db.findPostById posts id = some p → p.userId = userId →
          (getPostById posts id userId).1 = 200))
    ∧ ((db.findConnectionById conns id = none →
        (updateConnection conns id userId u now).1 = 404)
      ∧ (∀ c, db.findConnectionById conns id = some c → c.userId ≠ userId →
          (updateConnection conns id userId u now).1 = 403)
      ∧ (∀ c, db.findConnectionById conns id = some c → c.userId = userId →
          (updateConnection conns id userId u now).1 = 200)) := by
  refine ⟨⟨?_, ?_, ?_⟩, ?_, ?_, ?_⟩
  · intro h
    simp [getPostById, h]
  · intro p hp hne
    simp [getPostById, hp, hne]
  · intro p hp hown
    simp [getPostById, hp, hown]
  · intro h
    simp [updateConnection, h]
  · intro c hc hne
    simp [updateConnection, hc, hne]
  · intro c hc hown
    simp [updateConnection, hc, hown]

/-- C5 witness: on concrete stores all six branches produce the stated codes:
404 on missing ids regardless of requester, 403 for the foreign requester
bob, 200 for the owner alice. -/
theorem resource_access_check_order_witness :
    (getPostById [] "p1" "bob").1 = 404
    ∧ (getPostById [demoPost] "p1" "bob").1 = 403
    ∧ (getPostById [demoPost] "p1" "alice").1 = 200
    ∧ (updateConnection [] "c1" "bob" {} "t9").1 = 404
    ∧ (updateConnection [demoConnA] "c1" "bob" {} "t9").1 = 403
    ∧ (updateConnection [demoConnA] "c1" "alice" {} "t9").1 = 200 :=
  ⟨(resource_access_check_order [] [] "p1" "bob" {} "t9").1.1 (by decide),
   (resource_access_check_order [demoPost] [] "p1" "bob" {} "t9").1.2.1
     demoPost (by decide) (by decide),
   (resource_access_check_order [demoPost] [] "p1" "alice" {} "t9").1.2.2
     demoPost (by decide) (by decide),
   (resource_access_check_order [] [] "c1" "bob" {} "t9").2.1 (by decide),
   (resource_access_check_order [] [demoConnA] "c1" "bob" {} "t9").2.2.1
     demoConnA (by decide) (by decide),
   (resource_access_check_order [] [demoConnA] "c1" "alice" {} "t9").2.2.2
     demoConnA (by decide) (by decide)⟩

/-- C6: when the owner publishes a post but none of their connections is
both on one of the post's platforms and in status connected, the handler
answers 400, the posts store (hence every field of the post row) is
unchanged, and the outbound webhook is not called. -/
theorem publish_requires_connected_accounts (posts : List Post)
    (conns : List Connection) (id userId : String) (webhookOk : Bool)
    (now : String) (post : Post)
    (hfind : db.findPostById posts id = some post)
    (hown : post.userId = userId)
    (hempty : (db.findConnectionsByUserId conns userId).filter
        (fun c => post.platforms.contains c.platform
          && c.status = "connected") = []) :
    publishPost posts conns id userId webhookOk now
      = ⟨400, posts, false⟩ := by
  unfold publishPost
  rw [hfind]
  simp only [hown, ne_eq, not_true_eq_false, if_false, hempty,
    List.length_nil, if_true, if_pos trivial]

/-- C6 witness: alice's only connection is on linkedin while demoPost targets
instagram, so publishing answers 400 with the store untouched and no webhook
call. -/
theorem publish_requires_connected_accounts_witness :
    publishPost [demoPost] [demoConnA] "p1" "alice" true "t9"
      = ⟨400, [demoPost], false⟩ :=
  publish_requires_connected_accounts [demoPost] [demoConnA] "p1" "alice"
    true "t9" demoPost (by decide) (by decide) (by decide)

/-- C8 counterexample: on the content of the round-trip test the computed
wordCount is 3 (the hashtag and the mention are whitespace-separated tokens
and are counted), so the claimed triple with wordCount 2 is false. -/
theorem calculateMetadata_roundtrip_cex :
    ¬((calculateMetadata "Hello #world @friend").hashtags = ["#world"] ∧
      (calculateMetadata "Hello #world @friend").mentions = ["@friend"] ∧
      (calculateMetadata "Hello #world @friend").wordCount = 2) := by
  decide

/-- C8 (amended): creating a post with content "Hello #world @friend" yields
metadata with hashtags ["#world"], mentions ["@friend"], wordCount 3 and
characterCount 20; this is the metadata computed by the extraction routine
used at creation. -/
theorem calculateMetadata_roundtrip :
    calculateMetadata "Hello #world @friend"
      = { characterCount := 20, wordCount := 3,
          hashtags := ["#world"], mentions := ["@friend"] } := by
  decide

/-- C4: the signup controller never invokes validatePassword: the weak
password weakpass (no uppercase, digit or symbol) is rejected by
validatePassword, yet signup answers 201 Created and stores the user. -/
theorem signup_accepts_invalid_password :
    (validatePassword "weakpass").isValid = false ∧
    signup (fun p => "hash:" ++ p) (fun i => "tok:" ++ i) [] "a@b.co"
        "weakpass" "Ann" "Lee" "u1" "t0"
      = (.created (toSafeUser demoWeakUser) "tok:u1", [demoWeakUser]) := by
  exact ⟨by decide, by decide⟩

/-- C9 counterexample: updating the owned post with the empty string as new
content answers 200 and overwrites the stored content, yet no metadata is
recomputed from the new content anywhere — the merged object's metadata key
is absent (and the stored row, like every row of the posts table, holds no
metadata at all) — so the claim that metadata is recomputed for every new
content string, empty or not, is false. -/
theorem updatePost_empty_content_cex :
    updatePost [demoPost] "p1" "alice" { content := some "" } "t2"
      = (200, [{ demoPost with content := "", updatedAt := "t2" }],
         some { row := { demoPost with content := "", updatedAt := "t2" },
                metadata := none })
    ∧ (none : Option PostMetadata) ≠ some (calculateMetadata "") := by
  exact ⟨by decide, by decide⟩

/-- C9 (amended): on an update of an existing owned post whose content field
is a truthy (nonempty) string c, the handler recomputes the metadata from c:
the merged object carried by the 200 response has metadata calculateMetadata
c and content c, and every stored row under the updated id carries content c.
No metadata is persisted — the posts table has no metadata column, so the
write-back drops the recomputed metadata (and an empty-string content update
skips the recomputation altogether, see the counterexample). -/
theorem updatePost_recomputes_metadata (posts : List Post)
    (id userId : String) (updates : PostUpdate) (now c : String) (post : Post)
    (hfind : db.findPostById posts id = some post)
    (hown : post.userId = userId)
    (hc : updates.content = some c) (hne : c ≠ "") :
    (updatePost posts id userId updates now).1 = 200
    ∧ (∃ m : UpdatedPost,
        (updatePost posts id userId updates now).2.2 = some m
        ∧ m.metadata = some (calculateMetadata c)
        ∧ m.row.content = c)
    ∧ ∀ q ∈ (updatePost posts id userId updates now).2.1, q.id = id →
        q.content = c := by
  unfold updatePost
  rw [hfind]
  simp only [hown, ne_eq, not_true_eq_false, if_false, hc, if_pos hne]
  unfold db.updatePost
  rw [hfind]
  refine ⟨by trivial, ?_, ?_⟩
  · exact ⟨_, rfl, rfl, by simp [applyPostUpdate, hc]⟩
  · intro q hq hid
    simp only [List.mem_map] at hq
    obtain ⟨p0, _, rfl⟩ := hq
    by_cases h : p0.id = id
    · simp [if_pos h, applyPostUpdate, hc]
    · rw [if_neg h] at hid
      exact absurd hid h

/-- C9 witness: updating demoPost with content Bye stores content Bye and
the 200 response object carries the metadata recomputed from Bye. -/
theorem updatePost_recomputes_metadata_witness :
    (updatePost [demoPost] "p1" "alice" { content := some "Bye" } "t2").1
      = 200
    ∧ (∃ m : UpdatedPost,
        (updatePost [demoPost] "p1" "alice" { content := some "Bye" }
          "t2").2.2 = some m
        ∧ m.metadata = some (calculateMetadata "Bye")
        ∧ m.row.content = "Bye")
    ∧ ∀ q ∈ (updatePost [demoPost] "p1" "alice" { content := some "Bye" }
        "t2").2.1, q.id = "p1" → q.content = "Bye" :=
  updatePost_recomputes_metadata [demoPost] "p1" "alice"
    { content := some "Bye" } "t2" "Bye" demoPost (by decide) (by decide)
    rfl (by decide)

/-- C10: after signature verification, a callback whose body has a postId but
no status sets that post's status to published with no publish timestamp
recorded (publishedAt ends up unset, since the handler passes an undefined
publishedAt through the merge), answering 200 with success true; a postId
matching no post changes no row and still answers 200 with success true. -/
theorem n8nCallback_status_handling (posts : List Post) (pid now : String)
    (hpid : pid ≠ "") :
    (∀ post, db.findPostById posts pid = some post →
      (n8nCallback posts (some pid) none now).statusCode = 200
      ∧ (n8nCallback posts (some pid) none now).success = true
      ∧ ∀ q ∈ (n8nCallback posts (some pid) none now).posts, q.id = pid →
          q.status = "published" ∧ q.publishedAt = none)
    ∧ (db.findPostById posts pid = none →
        n8nCallback posts (some pid) none now = ⟨200, true, posts⟩) := by
  have hfalsy : jsFalsy (some pid) = false := by
    simp [jsFalsy, hpid]
  have hnone : jsFalsy (none : Option String) = true := by
    decide
  constructor
  · intro post hfind
    unfold n8nCallback
    simp only [hfalsy, hnone, Bool.not_true, Bool.false_and,
      Bool.false_eq_true, if_false, Option.getD_some, hfind, if_true]
    refine ⟨by trivial, by trivial, ?_⟩
    intro q hq hid
    unfold db.updatePost at hq
    rw [hfind] at hq
    simp only [List.mem_map] at hq
    obtain ⟨p0, _, rfl⟩ := hq
    by_cases h : p0.id = pid
    · simp [if_pos h, applyPostUpdate]
    · rw [if_neg h] at hid
      exact absurd hid h
  · intro hfind
    unfold n8nCallback
    simp only [hfalsy, hnone, Bool.not_true, Bool.false_and,
      Bool.false_eq_true, if_false, Option.getD_some, hfind]

/-- C10 witness: the callback without status publishes demoPost with no
publishedAt stamp, and an unknown postId leaves the store as it was, both
with a 200 success answer. -/
theorem n8nCallback_status_handling_witness :
    ((n8nCallback [demoPost] (some "p1") none "t3").statusCode = 200
     ∧ (n8nCallback [demoPost] (some "p1") none "t3").success = true
     ∧ ∀ q ∈ (n8nCallback [demoPost] (some "p1") none "t3").posts,
         q.id = "p1" → q.status = "published" ∧ q.publishedAt = none)
    ∧ n8nCallback [demoPost] (some "zz") none "t3" = ⟨200, true, [demoPost]⟩ :=
  ⟨(n8nCallback_status_handling [demoPost] "p1" "t3" (by decide)).1 demoPost
     (by decide),
   (n8nCallback_status_handling [demoPost] "zz" "t3" (by decide)).2
     (by decide)⟩

/-- C7 counterexample: creating demoConn1 then demoConn2 for the same
(user, platform) pair leaves exactly one row, but that row keeps the first
call's id and createdAt instead of carrying the second call's values. -/
theorem createConnection_keeps_first_id :
    db.createConnection (db.createConnection [] demoConn1) demoConn2
      = [demoConnMerged]
    ∧ demoConnMerged.id ≠ demoConn2.id
    ∧ demoConnMerged.createdAt ≠ demoConn2.createdAt := by
  exact ⟨by decide, by decide, by decide⟩

/-- Filtering a mapped list keeps its length when the map does not change
membership in the filter. -/
theorem length_filter_map_of_pred_invariant {α : Type} (f : α → α)
    (pred : α → Bool) (h : ∀ a, pred (f a) = pred a) (l : List α) :
    ((l.map f).filter pred).length = (l.filter pred).length := by
  induction l with
  | nil => rfl
  | cons a t ih =>
    simp only [List.map_cons, List.filter_cons, h a]
    cases hp : pred a <;> simp [ih]

/-- The conflict-update branch of db.createConnection never changes the
userId or platform of a row, so it preserves every (userId, platform) pair
count. -/
theorem pairCount_conflictUpdate (s : List Connection) (c : Connection)
    (uid p : String) :
    pairCount (s.map (fun r =>
      if r.userId = c.userId && r.platform = c.platform then
        { r with
          platformUserId := c.platformUserId
          platformUsername := c.platformUsername
          accessToken := c.accessToken
          refreshToken := c.refreshToken
          tokenExpiresAt := c.tokenExpiresAt
          status := c.status
          updatedAt := c.updatedAt }
      else r)) uid p = pairCount s uid p := by
  unfold pairCount
  apply length_filter_map_of_pred_invariant
  intro a
  by_cases hc : (a.userId = c.userId && a.platform = c.platform) = true
  · rw [if_pos hc]
  · rw [if_neg hc]

/-- db.createConnection keeps the pair-uniqueness invariant: a store with at
most one row per (userId, platform) pair still has at most one after any
create call. -/
theorem pairCount_createConnection_le (s : List Connection) (c : Connection)
    (uid p : String) (h : pairCount s uid p ≤ 1) :
    pairCount (db.createConnection s c) uid p ≤ 1 := by
  unfold db.createConnection
  by_cases hany : (s.any (fun r => r.userId = c.userId
      && r.platform = c.platform)) = true
  · rw [if_pos hany, pairCount_conflictUpdate]
    exact h
  · rw [if_neg hany]
    rw [Bool.not_eq_true] at hany
    unfold pairCount at h ⊢
    rw [List.filter_append, List.length_append]
    by_cases hc : (c.userId = uid && c.platform = p) = true
    · obtain ⟨hcu, hcp⟩ := by simpa using hc
      have hz : s.filter (fun r => r.userId = uid && r.platform = p) = [] := by
        rw [List.filter_eq_nil_iff]
        intro a ha
        have := (List.any_eq_false.mp hany) a ha
        simpa [hcu, hcp] using this
      simp [hz, List.filter_cons, hc]
    · have hone : List.filter (fun r => r.userId = uid && r.platform = p) [c]
          = [] := by
        simp only [List.filter_cons, hc, Bool.false_eq_true, if_false,
          List.filter_nil]
      rw [hone]
      simpa using h

/-- C7 (amended): creating twice for the same (userId, platform) pair leaves
exactly one stored row for that pair; it takes the second call's values for
platformUserId, platformUsername, accessToken, refreshToken, tokenExpiresAt,
status and updatedAt, but keeps the first call's id and createdAt (the
conflict update does not write those columns); and every create call keeps
the at-most-one-row-per-pair invariant. -/
theorem createConnection_upsert (conns : List Connection)
    (c1 c2 : Connection) (huser : c2.userId = c1.userId)
    (hplat : c2.platform = c1.platform)
    (hnew : conns.any (fun r => r.userId = c1.userId
      && r.platform = c1.platform) = false) :
    db.createConnection (db.createConnection conns c1) c2
      = conns ++ [{ c1 with
          platformUserId := c2.platformUserId
          platformUsername := c2.platformUsername
          accessToken := c2.accessToken
          refreshToken := c2.refreshToken
          tokenExpiresAt := c2.tokenExpiresAt
          status := c2.status
          updatedAt := c2.updatedAt }]
    ∧ pairCount (db.createConnection (db.createConnection conns c1) c2)
        c2.userId c2.platform = 1
    ∧ ∀ (s : List Connection) (c : Connection) (uid p : String),
        pairCount s uid p ≤ 1 → pairCount (db.createConnection s c) uid p ≤ 1 := by
  have hstep1 : db.createConnection conns c1 = conns ++ [c1] := by
    unfold db.createConnection
    rw [if_neg (by simp [hnew])]
  have hnomatch : ∀ r ∈ conns,
      (r.userId = c2.userId && r.platform = c2.platform) = false := by
    intro r hr
    have := (List.any_eq_false.mp hnew) r hr
    simpa [huser, hplat] using this
  have hc1 : (c1.userId = c2.userId && c1.platform = c2.platform) = true := by
    simp [huser, hplat]
  have hany2 : ((conns ++ [c1]).any (fun r => r.userId = c2.userId
      && r.platform = c2.platform)) = true := by
    rw [List.any_append]
    simp only [List.any_cons, List.any_nil, hc1, Bool.true_or, Bool.or_true]
  have hmain : db.createConnection (db.createConnection conns c1) c2
      = conns ++ [{ c1 with
          platformUserId := c2.platformUserId
          platformUsername := c2.platformUsername
          accessToken := c2.accessToken
          refreshToken := c2.refreshToken
          tokenExpiresAt := c2.tokenExpiresAt
          status := c2.status
          updatedAt := c2.updatedAt }] := by
    rw [hstep1]
    unfold db.createConnection
    rw [if_pos hany2, List.map_append]
    congr 1
    · calc conns.map _ = conns.map id := by
            apply List.map_congr_left
            intro a ha
            rw [if_neg (by simp [hnomatch a ha]), id]
        _ = conns := List.map_id conns
    · simp only [List.map_cons, List.map_nil, if_pos hc1]
  refine ⟨hmain, ?_, pairCount_createConnection_le⟩
  rw [hmain]
  unfold pairCount
  rw [List.filter_append, List.length_append]
  have hz : conns.filter (fun r => r.userId = c2.userId
      && r.platform = c2.platform) = [] := by
    rw [List.filter_eq_nil_iff]
    intro a ha
    simp [hnomatch a ha]
  rw [hz]
  simp [List.filter_cons, huser, hplat]

/-- C7 witness: for the concrete pair of create calls of user u1 on instagram
the store ends with exactly the merged row (second call's values, first
call's id and createdAt), the pair occurs exactly once, and a concrete
one-row store keeps the invariant under a further create. -/
theorem createConnection_upsert_witness :
    db.createConnection (db.createConnection [] demoConn1) demoConn2
      = [] ++ [{ demoConn1 with
          platformUserId := demoConn2.platformUserId
          platformUsername := demoConn2.platformUsername
          accessToken := demoConn2.accessToken
          refreshToken := demoConn2.refreshToken
          tokenExpiresAt := demoConn2.tokenExpiresAt
          status := demoConn2.status
          updatedAt := demoConn2.updatedAt }]
    ∧ pairCount (db.createConnection (db.createConnection [] demoConn1)
        demoConn2) demoConn2.userId demoConn2.platform = 1
    ∧ pairCount (db.createConnection [demoConnA] demoConnA) "alice"
        "linkedin" ≤ 1 := by
  have h := createConnection_upsert [] demoConn1 demoConn2 (by decide)
    (by decide) (by decide)
  exact ⟨h.1, h.2.1, h.2.2 [demoConnA] demoConnA "alice" "linkedin"
    (by decide)⟩

end WeConnect
